import Mathlib

/-!
A shallow embedding of the VeriLuxe deployment scripts
(`contracts/contracts/deploy-js/python-deploy.py` and
`contracts/scripts/generate_keypair.py`).

The scripts are linear orchestration over external effects: the environment
(`os.getenv`), the filesystem (`os.path.exists`, `open`), the Stellar SDK
(`Keypair.from_secret`, `Keypair.from_mnemonic_phrase`) and the network
(`Server.load_account`, `Server.submit_transaction`).  Each effect boundary is
embedded as an explicit oracle:

* `Env` — the process environment;
* `FS` — the filesystem;
* `SDK` — the key-derivation primitives of the Stellar SDK (third-party code,
  so kept abstract except where a claim is about their concrete behaviour, in
  which case a spec-modelled instance is supplied and marked as such);
* `Net` — the Horizon network layer.  A `Net` oracle is keyed by the index of
  the network call (how many network calls the run has already made), so that
  a mocked network may answer each call differently, as a real ledger does.

Every run of the deployer returns, besides its Python-level outcome
(`Except PyErr α`), the final network-call counter and a trace of observable
events (`Ev`): account loads, transaction builds and transaction submissions,
in program order.  Claims about call counts and phase ordering are stated as
equalities on this trace.
-/

set_option autoImplicit false

namespace VeriLuxe

/-- The Python exceptions the scripts raise or propagate. -/
inductive PyErr where
  /-- `ValueError`, raised by `setup_network` on an unsupported network and by
  `bytes.fromhex` on a non-hexadecimal string. -/
  | valueError (msg : String)
  /-- `FileNotFoundError`, raised by `load_wasm`. -/
  | fileNotFoundError (msg : String)
  /-- `stellar_sdk.exceptions.RequestException` or any other error raised by
  an SDK network call. -/
  | requestException (msg : String)
  /-- A plain `Exception(...)`, raised on a non-success submission status. -/
  | exception (msg : String)
  deriving Repr, DecidableEq

/-- A Stellar keypair as the script observes it: a public key (`G...` address)
and the secret it was built from. -/
structure Keypair where
  public_key : String
  secret : String
  deriving Repr, DecidableEq

/-- The key-derivation part of the Stellar SDK used by `setup_account`.
`from_mnemonic_phrase` is total (the hardcoded phrase is a valid mnemonic);
`from_secret` may raise on malformed secrets. -/
structure SDK where
  from_mnemonic_phrase : String → Keypair
  from_secret : String → Except PyErr Keypair

/-- The process environment, as read by `os.getenv`. -/
abbrev Env := String → Option String

/-- The filesystem, as read by `os.path.exists` and `open(...).read()`.
Bytes are modelled as `Nat`s below 256. -/
structure FS where
  path_exists : String → Bool
  read_bytes : String → List Nat

/-- `stellar_sdk.Network.TESTNET_NETWORK_PASSPHRASE`. -/
def TESTNET_NETWORK_PASSPHRASE : String := "Test SDF Network ; September 2015"

/-- `stellar_sdk.Network.FUTURENET_NETWORK_PASSPHRASE`. -/
def FUTURENET_NETWORK_PASSPHRASE : String := "Test SDF Future Network ; October 2022"

/-- The network profile resolved by `setup_network`: Horizon (ledger-query)
URL, Soroban (contract-RPC) URL and network passphrase.  Constructing the
`Server`/`SorobanServer` client objects performs no network call. -/
structure NetworkConfig where
  horizon_url : String
  soroban_url : String
  network_passphrase : String
  deriving Repr, DecidableEq

/-- The fixed testnet profile (python-deploy.py lines 34-36). -/
def testnet_config : NetworkConfig :=
  { horizon_url := "https://horizon-testnet.stellar.org",
    soroban_url := "https://soroban-testnet.stellar.org",
    network_passphrase := TESTNET_NETWORK_PASSPHRASE }

/-- The fixed futurenet profile (python-deploy.py lines 38-40). -/
def futurenet_config : NetworkConfig :=
  { horizon_url := "https://horizon-futurenet.stellar.org",
    soroban_url := "https://rpc-futurenet.stellar.org:443",
    network_passphrase := FUTURENET_NETWORK_PASSPHRASE }

/-- `VeriLuxeDeployer.setup_network` (python-deploy.py lines 31-45). -/
def setup_network (network : String) : Except PyErr NetworkConfig :=
  if network = "testnet" then Except.ok testnet_config
  else if network = "futurenet" then Except.ok futurenet_config
  else Except.error (PyErr.valueError ("Unsupported network: " ++ network))

/-- The hardcoded fallback recovery phrase (python-deploy.py line 53). -/
def mnemonic : String :=
  "coin idle bus total sense awful picture dial stick between erode expose stairs they swing account august indicate cruel nasty inherit vocal veteran deal"

/-- `VeriLuxeDeployer.setup_account` (python-deploy.py lines 47-58).
Python's `if not secret_key` is true both when `os.getenv` returned `None`
and when it returned the empty string. -/
def setup_account (sdk : SDK) (env : Env) : Except PyErr Keypair :=
  match env "ADMIN_SECRET_KEY" with
  | none => Except.ok (sdk.from_mnemonic_phrase mnemonic)
  | some secret_key =>
      if secret_key = "" then Except.ok (sdk.from_mnemonic_phrase mnemonic)
      else sdk.from_secret secret_key

/-- The default WASM path (python-deploy.py line 63). -/
def default_wasm_path : String :=
  "../contracts/target/wasm32v1-none/release/fashion_auth_contract.wasm"

/-- `VeriLuxeDeployer.load_wasm` (python-deploy.py lines 60-72).
`if not wasm_path` is true for `None` and for the empty string. -/
def load_wasm (fs : FS) (wasm_path : Option String) : Except PyErr (List Nat) :=
  let path := match wasm_path with
    | none => default_wasm_path
    | some p => if p = "" then default_wasm_path else p
  if fs.path_exists path then Except.ok (fs.read_bytes path)
  else Except.error (PyErr.fileNotFoundError ("WASM file not found: " ++ path))

/-- An account record as returned by `Server.load_account`: address and
current sequence number. -/
structure Account where
  account_id : String
  sequence : Int
  deriving Repr, DecidableEq

/-- The three Soroban operations the script constructs. -/
inductive Operation where
  | uploadContractWasm (wasm : List Nat)
  | createContract (wasm_hash : List Nat) (address : String)
  | invokeContract (contract_address : String) (function_name : String)
      (parameters : List String)
  deriving Repr, DecidableEq

/-- A built transaction.  `signatures` records the secrets used to sign. -/
structure Transaction where
  source_account : Account
  network_passphrase : String
  base_fee : Nat
  operations : List Operation
  timeout : Nat
  signatures : List String
  deriving Repr, DecidableEq

/-- The `TransactionBuilder(...).add_operation(op).set_timeout(300).build()`
chain used identically for all three transactions (base fee 100000,
timeout 300), yielding an unsigned transaction. -/
def build_tx (source_account : Account) (network_passphrase : String)
    (op : Operation) : Transaction :=
  { source_account := source_account,
    network_passphrase := network_passphrase,
    base_fee := 100000,
    operations := [op],
    timeout := 300,
    signatures := [] }

/-- `tx.sign(keypair)`. -/
def Transaction.sign (tx : Transaction) (kp : Keypair) : Transaction :=
  { tx with signatures := tx.signatures ++ [kp.secret] }

/-- A submission response, seen by the script as a dict with keys
`successful`, `hash` and `contract_address`. -/
structure TxResponse where
  successful : Bool
  hash : String
  contract_address : String
  deriving Repr, DecidableEq

/-- The Horizon network layer.  Each oracle is keyed by the global index of
the network call being made, so successive calls may observe different
ledger states (in particular, different sequence numbers). -/
structure Net where
  load_account : Nat → String → Except PyErr Account
  submit_transaction : Nat → Transaction → Except PyErr TxResponse

/-- Observable events of a deployer run, in program order. -/
inductive Ev where
  /-- `Server.load_account(account_id)` was called. -/
  | load (account_id : String)
  /-- `TransactionBuilder(...).build()` produced `tx` (still unsigned). -/
  | build (tx : Transaction)
  /-- `Server.submit_transaction(tx)` was called with the signed `tx`. -/
  | submit (tx : Transaction)
  deriving Repr, DecidableEq

/-- Outcome of a stateful run: Python-level result, final network-call
counter, and the event trace emitted by the run. -/
abbrev Run (α : Type) := Except PyErr α × Nat × List Ev

/-- The deployer object after `VeriLuxeDeployer.__init__` succeeded. -/
structure VeriLuxeDeployer where
  network : String
  config : NetworkConfig
  admin_keypair : Keypair
  deriving Repr, DecidableEq

/-- `VeriLuxeDeployer.__init__` (python-deploy.py lines 22-29):
stores the network name, then `setup_network()`, then `setup_account()`.
Construction performs no network call (it takes no `Net` oracle). -/
def VeriLuxeDeployer.init (sdk : SDK) (env : Env) (network : String) :
    Except PyErr VeriLuxeDeployer :=
  match setup_network network with
  | Except.error e => Except.error e
  | Except.ok config =>
    match setup_account sdk env with
    | Except.error e => Except.error e
    | Except.ok kp =>
        Except.ok { network := network, config := config, admin_keypair := kp }

/-- The value of one hexadecimal digit, or `none`. -/
def hexVal (c : Char) : Option Nat :=
  if '0' ≤ c ∧ c ≤ '9' then some (c.toNat - 48)
  else if 'a' ≤ c ∧ c ≤ 'f' then some (c.toNat - 87)
  else if 'A' ≤ c ∧ c ≤ 'F' then some (c.toNat - 55)
  else none

/-- Decode pairs of hexadecimal digits into bytes; `ValueError` on a stray
digit or a non-hexadecimal character, as `bytes.fromhex` raises. -/
def hexPairs : List Char → Except PyErr (List Nat)
  | [] => Except.ok []
  | [_] => Except.error (PyErr.valueError "non-hexadecimal number found in fromhex() arg")
  | c1 :: c2 :: rest =>
    match hexVal c1, hexVal c2, hexPairs rest with
    | some h, some l, Except.ok bs => Except.ok ((16 * h + l) :: bs)
    | _, _, _ =>
        Except.error (PyErr.valueError "non-hexadecimal number found in fromhex() arg")

/-- `bytes.fromhex` (used at python-deploy.py line 119): two hexadecimal
digits per byte, spaces ignored. -/
def bytes_fromhex (s : String) : Except PyErr (List Nat) :=
  hexPairs (s.toList.filter (fun c => c ≠ ' '))

/-- `VeriLuxeDeployer.initialize_contract` (python-deploy.py lines 160-193),
started when the run has already made `k` network calls.  The returned trace
holds only this call's own events.  On a submission that returns a
non-success status the method only prints a warning and returns normally;
on a raised exception the `except` clause re-raises. -/
def VeriLuxeDeployer.init_contract (d : VeriLuxeDeployer) (net : Net) (k : Nat)
    (contract_address : String) : Run Unit :=
  let pk := d.admin_keypair.public_key
  match net.load_account k pk with
  | Except.error e => (Except.error e, k + 1, [Ev.load pk])
  | Except.ok account =>
    let init_op := Operation.invokeContract contract_address "init" [pk]
    let init_tx := build_tx account d.config.network_passphrase init_op
    let init_signed := init_tx.sign d.admin_keypair
    match net.submit_transaction (k + 1) init_signed with
    | Except.error e =>
        (Except.error e, k + 2, [Ev.load pk, Ev.build init_tx, Ev.submit init_signed])
    | Except.ok resp =>
        if resp.successful then
          (Except.ok (), k + 2, [Ev.load pk, Ev.build init_tx, Ev.submit init_signed])
        else
          -- warning printed; the method still returns normally
          (Except.ok (), k + 2, [Ev.load pk, Ev.build init_tx, Ev.submit init_signed])

/-- The structured result returned on full success
(python-deploy.py lines 149-154). -/
structure DeployResult where
  contract_hash : String
  contract_address : String
  admin_public_key : String
  network : String
  deriving Repr, DecidableEq

/-- `VeriLuxeDeployer.deploy_contract` (python-deploy.py lines 74-158).
The `try`/`except` wrapper only prints and re-raises, so it does not change
the outcome.  The exception messages elide the interpolated response value
(`f"Upload failed: {upload_response}"` and alike), which no claim depends
on. -/
def VeriLuxeDeployer.deploy_contract (d : VeriLuxeDeployer) (fs : FS)
    (net : Net) : Run DeployResult :=
  let pk := d.admin_keypair.public_key
  match load_wasm fs none with
  | Except.error e => (Except.error e, 0, [])
  | Except.ok wasm_data =>
    match net.load_account 0 pk with
    | Except.error e => (Except.error e, 1, [Ev.load pk])
    | Except.ok account =>
      let upload_op := Operation.uploadContractWasm wasm_data
      let upload_tx := build_tx account d.config.network_passphrase upload_op
      let upload_signed := upload_tx.sign d.admin_keypair
      match net.submit_transaction 1 upload_signed with
      | Except.error e =>
          (Except.error e, 2, [Ev.load pk, Ev.build upload_tx, Ev.submit upload_signed])
      | Except.ok upload_response =>
        if upload_response.successful then
          let contract_hash := upload_response.hash
          let tr1 := [Ev.load pk, Ev.build upload_tx, Ev.submit upload_signed]
          match net.load_account 2 pk with
          | Except.error e => (Except.error e, 3, tr1 ++ [Ev.load pk])
          | Except.ok account2 =>
            match bytes_fromhex contract_hash with
            | Except.error e => (Except.error e, 3, tr1 ++ [Ev.load pk])
            | Except.ok wasm_hash =>
              let create_op := Operation.createContract wasm_hash pk
              let create_tx := build_tx account2 d.config.network_passphrase create_op
              let create_signed := create_tx.sign d.admin_keypair
              match net.submit_transaction 3 create_signed with
              | Except.error e =>
                  (Except.error e, 4,
                   tr1 ++ [Ev.load pk, Ev.build create_tx, Ev.submit create_signed])
              | Except.ok create_response =>
                if create_response.successful then
                  let contract_address := create_response.contract_address
                  let tr2 := tr1 ++ [Ev.load pk, Ev.build create_tx, Ev.submit create_signed]
                  match d.init_contract net 4 contract_address with
                  | (Except.error e, k, tr3) => (Except.error e, k, tr2 ++ tr3)
                  | (Except.ok _, k, tr3) =>
                      (Except.ok { contract_hash := contract_hash,
                                   contract_address := contract_address,
                                   admin_public_key := pk,
                                   network := d.network }, k, tr2 ++ tr3)
                else
                  (Except.error (PyErr.exception "Contract creation failed"), 4,
                   tr1 ++ [Ev.load pk, Ev.build create_tx, Ev.submit create_signed])
        else
          (Except.error (PyErr.exception "Upload failed"), 2,
           [Ev.load pk, Ev.build upload_tx, Ev.submit upload_signed])

/-- The network name chosen by `main` (python-deploy.py line 199):
`sys.argv[1] if len(sys.argv) > 1 else 'testnet'`.  `argv` includes the
program name at position 0. -/
def main_network (argv : List String) : String :=
  match argv with
  | _ :: n :: _ => n
  | _ => "testnet"

/-- `main` (python-deploy.py lines 195-217), returning the process exit
status and the network trace.  `deploy_contract` is an `async def`, and
`main` calls `deployer.deploy_contract()` without `await`: in CPython this
returns a coroutine object without executing the body, so no phase of the
deployment runs and no network call is made.  The next statement,
`result['contract_hash']`, then raises `TypeError` (a coroutine is not
subscriptable), which the `except` clause catches, prints, and converts to
`sys.exit(1)`. -/
def main (sdk : SDK) (env : Env) (_fs : FS) (_net : Net) (argv : List String) :
    Nat × List Ev :=
  match VeriLuxeDeployer.init sdk env (main_network argv) with
  | Except.error _ => (1, [])
  | Except.ok _ =>
      -- the coroutine returned by `deploy_contract()` is never awaited:
      -- `fs` and `net` are never consulted and the TypeError path exits 1
      (1, [])

/-- The lowercase hexadecimal digit of a value below 16, as Python's
`bytes.hex()` prints it. -/
def nibbleChar (n : Nat) : Char :=
  if n < 10 then Char.ofNat (48 + n) else Char.ofNat (87 + n)

/-- Two lowercase hexadecimal digits per byte. -/
def hexChars : List Nat → List Char
  | [] => []
  | b :: bs => nibbleChar (b % 256 / 16) :: nibbleChar (b % 16) :: hexChars bs

/-- Python's `bytes.hex()`, used by generate_keypair.py line 14 to print
`keypair.raw_secret_key().hex()`. -/
def bytes_hex (key : List Nat) : String := String.mk (hexChars key)

/-- `generate_keypair` (generate_keypair.py lines 8-23): the lines printed
for a keypair whose public address, native-encoded secret and raw secret
bytes are given.  Line 2 prints the raw secret in hexadecimal, and line 6
tells the operator to put exactly that hexadecimal string into
`ADMIN_SECRET_KEY`. -/
def generate_keypair_lines (public_key : String) (secret : String)
    (raw_secret : List Nat) : List String :=
  ["=== NUEVO KEYPAIR GENERADO ===",
   "Public Key (Address): " ++ public_key,
   "Secret Key (Hex): " ++ bytes_hex raw_secret,
   "Secret Key (Stellar): " ++ secret,
   "",
   "IMPORTANTE:",
   "- Usa el \"Secret Key (Hex)\" para ADMIN_SECRET_KEY en tu .env",
   "- Usa el \"Public Key (Address)\" para inicializar el contrato",
   "- NUNCA compartas el secret key - guárdalo de forma segura",
   "",
   "Para usar en testnet, financia la cuenta en:",
   "https://laboratory.stellar.org/#account-creator?network=test"]

/-- The base32 alphabet of Stellar's strkey encoding. -/
def base32Chars : String := "ABCDEFGHIJKLMNOPQRSTUVWXYZ234567"

/-- Modelled from the spec: whether a string is in the Stellar SDK's native
string encoding of a secret seed.  The SDK itself is third-party code, not
part of this repository; the spec (§4.1, §6) distinguishes "the private key
in raw hexadecimal encoding" from "the private key in the SDK's native
string encoding".  The native (strkey) encoding of an Ed25519 secret seed
is a 56-character base32 string beginning with `S`. -/
def isNativeSecret (s : String) : Bool :=
  s.length == 56 && s.startsWith "S" && s.toList.all (fun c => base32Chars.toList.contains c)

/-- Modelled from the spec: the SDK's `Keypair.from_secret`, which parses
only the native string encoding and raises on anything else.  (The real
parser additionally validates a version byte and checksum, so it accepts a
subset of what this model accepts; every rejection proved about this model
therefore also holds of the real parser.) -/
def from_secret_model (s : String) : Except PyErr Keypair :=
  if isNativeSecret s then Except.ok { public_key := "G" ++ s.drop 1, secret := s }
  else Except.error (PyErr.exception "Invalid Ed25519 Secret Seed")

/-- Modelled from the spec: the SDK's deterministic mnemonic derivation
(`Keypair.from_mnemonic_phrase`).  The spec relies only on determinism —
"same phrase always yields the same public/private keypair" — so the
derivation itself is an abstract deterministic map. -/
def from_mnemonic_model (m : String) : Keypair :=
  { public_key := "G_MNEMONIC_" ++ m, secret := "S_MNEMONIC_" ++ m }

/-- The SDK assembled from the two spec-modelled derivation primitives. -/
def sdkModel : SDK :=
  { from_mnemonic_phrase := from_mnemonic_model, from_secret := from_secret_model }

/-! ### Concrete test worlds

Closed instances of the oracles, used by counterexamples and by the
witnesses of the hypothesis-bearing theorems. -/

/-- A test SDK whose two derivation primitives are visibly distinct, so the
dispatch between them is observable. -/
def sdkTest : SDK :=
  { from_mnemonic_phrase := fun _ => { public_key := "GTEST", secret := "STEST" },
    from_secret := fun s => Except.ok { public_key := "GSEC", secret := s } }

/-- An environment with no variables set. -/
def envNone : Env := fun _ => none

/-- An environment with exactly `ADMIN_SECRET_KEY` set, to `v`. -/
def envWith (v : String) : Env :=
  fun k => if k = "ADMIN_SECRET_KEY" then some v else none

/-- A filesystem on which every path exists and reads as `\0asm`. -/
def fsYes : FS := { path_exists := fun _ => true, read_bytes := fun _ => [0, 97, 115, 109] }

/-- A filesystem on which no path exists. -/
def fsNo : FS := { path_exists := fun _ => false, read_bytes := fun _ => [] }

/-- A deployer as constructed on testnet with the test SDK and no
environment variables. -/
def dTest : VeriLuxeDeployer :=
  { network := "testnet", config := testnet_config,
    admin_keypair := { public_key := "GTEST", secret := "STEST" } }

/-- The response every successful submission returns in the test worlds. -/
def respOk : TxResponse :=
  { successful := true, hash := "deadbeef", contract_address := "CTEST" }

/-- A network on which every call succeeds; the account returned by the
`k`-th network call carries sequence number `k`, so each load observes a
different ledger state. -/
def netOk : Net :=
  { load_account := fun k pk => Except.ok { account_id := pk, sequence := Int.ofNat k },
    submit_transaction := fun _ _ => Except.ok respOk }

/-- A network on which every submission returns a non-success status. -/
def netUploadFail : Net :=
  { load_account := fun k pk => Except.ok { account_id := pk, sequence := Int.ofNat k },
    submit_transaction := fun _ _ =>
      Except.ok { successful := false, hash := "", contract_address := "" } }

/-- A network on which the sixth network call — the initialization
submission — raises, and everything before it succeeds. -/
def netInitRaise : Net :=
  { load_account := fun k pk => Except.ok { account_id := pk, sequence := Int.ofNat k },
    submit_transaction := fun k _ =>
      if k == 5 then Except.error (PyErr.requestException "boom") else Except.ok respOk }

/-- A network on which the initialization submission returns a non-success
status and everything before it succeeds. -/
def netInitSoft : Net :=
  { load_account := fun k pk => Except.ok { account_id := pk, sequence := Int.ofNat k },
    submit_transaction := fun k _ =>
      if k == 5 then Except.ok { successful := false, hash := "", contract_address := "" }
      else Except.ok respOk }

instance {ε α : Type} [DecidableEq ε] [DecidableEq α] : DecidableEq (Except ε α) := fun x y =>
  match x, y with
  | Except.error a, Except.error b =>
      if h : a = b then Decidable.isTrue (by rw [h])
      else Decidable.isFalse (fun hc => h (by cases hc; rfl))
  | Except.error _, Except.ok _ => Decidable.isFalse (fun hc => Except.noConfusion hc)
  | Except.ok _, Except.error _ => Decidable.isFalse (fun hc => Except.noConfusion hc)
  | Except.ok a, Except.ok b =>
      if h : a = b then Decidable.isTrue (by rw [h])
      else Decidable.isFalse (fun hc => h (by cases hc; rfl))

/-! ### Statement helpers

The three (unsigned) transactions `deploy_contract` builds, as functions of
the account the preceding `load_account` returned.  These abbreviations
only name subterms of `deploy_contract`; theorems use them to state which
loaded account each transaction is built from. -/

/-- The upload transaction, built from account `a`. -/
def upload_tx_of (fs : FS) (d : VeriLuxeDeployer) (a : Account) : Transaction :=
  build_tx a d.config.network_passphrase
    (Operation.uploadContractWasm (fs.read_bytes default_wasm_path))

/-- The contract-creation transaction, built from account `a` and the
decoded bytecode hash `wh`. -/
def create_tx_of (d : VeriLuxeDeployer) (a : Account) (wh : List Nat) : Transaction :=
  build_tx a d.config.network_passphrase
    (Operation.createContract wh d.admin_keypair.public_key)

/-- The initialization transaction, built from account `a` and the contract
address `addr`. -/
def init_tx_of (d : VeriLuxeDeployer) (a : Account) (addr : String) : Transaction :=
  build_tx a d.config.network_passphrase
    (Operation.invokeContract addr "init" [d.admin_keypair.public_key])


/-! ## Auxiliary lemmas -/

theorem hexChars_length (key : List Nat) : (hexChars key).length = 2 * key.length := by
  induction key with
  | nil => rfl
  | cons b bs ih => simp [hexChars, ih, Nat.mul_succ]

theorem bytes_hex_length (key : List Nat) : (bytes_hex key).length = 2 * key.length := by
  simp [bytes_hex, String.length, hexChars_length]

theorem isNativeSecret_of_length_ne (s : String) (h : s.length ≠ 56) :
    isNativeSecret s = false := by
  have hb : (s.length == 56) = false := beq_eq_false_iff_ne.mpr h
  simp [isNativeSecret, hb]

/-! ## Claim theorems -/

/-- C1: if the upload-phase submission returns a non-success status,
`deploy_contract` raises `Exception("Upload failed: ...")` and stops: the
whole run consists of exactly one account load, one transaction build and
one submission — the instantiate and initialize phases are never
attempted. -/
theorem C1_upload_failure_aborts (fs : FS) (net : Net) (d : VeriLuxeDeployer)
    (a1 : Account) (r1 : TxResponse)
    (hf : fs.path_exists default_wasm_path = true)
    (hl0 : net.load_account 0 d.admin_keypair.public_key = Except.ok a1)
    (hs1 : ∀ tx, net.submit_transaction 1 tx = Except.ok r1)
    (hr1 : r1.successful = false) :
    d.deploy_contract fs net =
      (Except.error (PyErr.exception "Upload failed"), 2,
       [Ev.load d.admin_keypair.public_key,
        Ev.build (upload_tx_of fs d a1),
        Ev.submit ((upload_tx_of fs d a1).sign d.admin_keypair)]) := by
  simp [VeriLuxeDeployer.deploy_contract, load_wasm, upload_tx_of, hf, hl0, hs1, hr1]

theorem C1_upload_failure_aborts_witness :
    dTest.deploy_contract fsYes netUploadFail =
      (Except.error (PyErr.exception "Upload failed"), 2,
       [Ev.load "GTEST",
        Ev.build (upload_tx_of fsYes dTest { account_id := "GTEST", sequence := 0 }),
        Ev.submit ((upload_tx_of fsYes dTest { account_id := "GTEST", sequence := 0 }).sign
          { public_key := "GTEST", secret := "STEST" })]) :=
  C1_upload_failure_aborts fsYes netUploadFail dTest
    { account_id := "GTEST", sequence := 0 }
    { successful := false, hash := "", contract_address := "" }
    rfl rfl (fun _ => rfl) rfl

/-- C2 counterexample: with upload and instantiate succeeding and the
initialization submission raising an exception, `deploy_contract` does NOT
return the structured result — `initialize_contract`'s `except` clause
re-raises and `deploy_contract` propagates the error. -/
theorem C2_init_exception_counterexample :
    (dTest.deploy_contract fsYes netInitRaise).1 =
      Except.error (PyErr.requestException "boom") := by decide

/-- C2 amended: if upload and instantiate succeed and the initialization
submission returns a non-success status (a soft failure, not a raised
exception), `deploy_contract` still returns the structured result with the
already-obtained hash and contract address. -/
theorem C2_soft_init_failure_returns_result (fs : FS) (net : Net)
    (d : VeriLuxeDeployer) (a1 a2 a3 : Account) (r1 r2 r3 : TxResponse)
    (wh : List Nat)
    (hf : fs.path_exists default_wasm_path = true)
    (hl0 : net.load_account 0 d.admin_keypair.public_key = Except.ok a1)
    (hs1 : ∀ tx, net.submit_transaction 1 tx = Except.ok r1)
    (hr1 : r1.successful = true)
    (hl2 : net.load_account 2 d.admin_keypair.public_key = Except.ok a2)
    (hhex : bytes_fromhex r1.hash = Except.ok wh)
    (hs3 : ∀ tx, net.submit_transaction 3 tx = Except.ok r2)
    (hr2 : r2.successful = true)
    (hl4 : net.load_account 4 d.admin_keypair.public_key = Except.ok a3)
    (hs5 : ∀ tx, net.submit_transaction 5 tx = Except.ok r3)
    (hr3 : r3.successful = false) :
    (d.deploy_contract fs net).1 =
      Except.ok { contract_hash := r1.hash, contract_address := r2.contract_address,
                  admin_public_key := d.admin_keypair.public_key,
                  network := d.network } := by
  simp [VeriLuxeDeployer.deploy_contract, load_wasm, VeriLuxeDeployer.init_contract,
        hf, hl0, hs1, hr1, hl2, hhex, hs3, hr2, hl4, hs5, hr3]

theorem C2_soft_init_failure_returns_result_witness :
    (dTest.deploy_contract fsYes netInitSoft).1 =
      Except.ok { contract_hash := "deadbeef", contract_address := "CTEST",
                  admin_public_key := "GTEST", network := "testnet" } :=
  C2_soft_init_failure_returns_result fsYes netInitSoft dTest
    { account_id := "GTEST", sequence := 0 }
    { account_id := "GTEST", sequence := 2 }
    { account_id := "GTEST", sequence := 4 }
    respOk respOk { successful := false, hash := "", contract_address := "" }
    [222, 173, 190, 239]
    rfl rfl (fun _ => rfl) rfl rfl rfl (fun _ => rfl) rfl rfl (fun _ => rfl) rfl

/-- C3: if the contract binary does not exist at the resolved wasm path,
`deploy_contract` fails with `FileNotFoundError` and the event trace is
empty: zero account loads, zero builds, zero submissions. -/
theorem C3_missing_wasm_no_network (fs : FS) (net : Net) (d : VeriLuxeDeployer)
    (hf : fs.path_exists default_wasm_path = false) :
    d.deploy_contract fs net =
      (Except.error (PyErr.fileNotFoundError
          ("WASM file not found: " ++ default_wasm_path)), 0, ([] : List Ev)) := by
  simp [VeriLuxeDeployer.deploy_contract, load_wasm, hf]

theorem C3_missing_wasm_no_network_witness :
    dTest.deploy_contract fsNo netOk =
      (Except.error (PyErr.fileNotFoundError
          ("WASM file not found: " ++ default_wasm_path)), 0, ([] : List Ev)) :=
  C3_missing_wasm_no_network fsNo netOk dTest rfl

/-- C4: construction on `"testnet"` resolves exactly the fixed testnet
profile and on `"futurenet"` the fixed futurenet profile; any other network
name makes construction fail with `ValueError` independently of the SDK and
environment — i.e. before account setup, and without a network oracle ever
being involved. -/
theorem C4_network_profiles :
    (∀ (sdk : SDK) (env : Env) (kp : Keypair), setup_account sdk env = Except.ok kp →
        VeriLuxeDeployer.init sdk env "testnet" =
          Except.ok { network := "testnet", config := testnet_config,
                      admin_keypair := kp })
  ∧ (∀ (sdk : SDK) (env : Env) (kp : Keypair), setup_account sdk env = Except.ok kp →
        VeriLuxeDeployer.init sdk env "futurenet" =
          Except.ok { network := "futurenet", config := futurenet_config,
                      admin_keypair := kp })
  ∧ (∀ (n : String), n ≠ "testnet" → n ≠ "futurenet" → ∀ (sdk : SDK) (env : Env),
        VeriLuxeDeployer.init sdk env n =
          Except.error (PyErr.valueError ("Unsupported network: " ++ n))) := by
  refine ⟨?_, ?_, ?_⟩
  · intro sdk env kp h
    simp [VeriLuxeDeployer.init, setup_network, h]
  · intro sdk env kp h
    simp [VeriLuxeDeployer.init, setup_network, h]
  · intro n h1 h2 sdk env
    simp [VeriLuxeDeployer.init, setup_network, h1, h2]

theorem C4_network_profiles_witness :
    VeriLuxeDeployer.init sdkTest envNone "testnet" =
      Except.ok { network := "testnet", config := testnet_config,
                  admin_keypair := { public_key := "GTEST", secret := "STEST" } }
  ∧ VeriLuxeDeployer.init sdkTest envNone "mainnet" =
      Except.error (PyErr.valueError ("Unsupported network: " ++ "mainnet")) :=
  ⟨C4_network_profiles.1 sdkTest envNone { public_key := "GTEST", secret := "STEST" } rfl,
   C4_network_profiles.2.2 "mainnet" (by decide) (by decide) sdkTest envNone⟩

/-- C5 counterexample: with `ADMIN_SECRET_KEY` present but set to the empty
string — i.e. set — the keypair is taken from the mnemonic fallback, not
derived from the variable's value, so "if the variable is set, the keypair
is derived from its value" fails as stated. -/
theorem C5_empty_secret_counterexample :
    setup_account sdkTest (envWith "") =
        Except.ok { public_key := "GTEST", secret := "STEST" }
  ∧ sdkTest.from_secret "" = Except.ok { public_key := "GSEC", secret := "" }
  ∧ setup_account sdkTest (envWith "") ≠ sdkTest.from_secret "" := by
  exact ⟨rfl, rfl, by decide⟩

/-- C5 amended: if `ADMIN_SECRET_KEY` is set to a non-empty value the
keypair is derived from that value via `Keypair.from_secret`; if it is
unset (or empty) the keypair is derived from the fixed hardcoded mnemonic,
and any two runs without the variable resolve the same keypair. -/
theorem C5_secret_key_dispatch :
    (∀ (sdk : SDK) (env : Env) (s : String),
        env "ADMIN_SECRET_KEY" = some s → s ≠ "" →
        setup_account sdk env = sdk.from_secret s)
  ∧ (∀ (sdk : SDK) (env : Env), env "ADMIN_SECRET_KEY" = none →
        setup_account sdk env = Except.ok (sdk.from_mnemonic_phrase mnemonic))
  ∧ (∀ (sdk : SDK) (env env' : Env),
        env "ADMIN_SECRET_KEY" = none → env' "ADMIN_SECRET_KEY" = none →
        setup_account sdk env = setup_account sdk env') := by
  refine ⟨?_, ?_, ?_⟩
  · intro sdk env s h hs
    simp [setup_account, h, hs]
  · intro sdk env h
    simp [setup_account, h]
  · intro sdk env env' h h'
    simp [setup_account, h, h']

theorem C5_secret_key_dispatch_witness :
    setup_account sdkTest (envWith "SXYZ") = sdkTest.from_secret "SXYZ"
  ∧ setup_account sdkTest envNone = Except.ok (sdkTest.from_mnemonic_phrase mnemonic) :=
  ⟨C5_secret_key_dispatch.1 sdkTest (envWith "SXYZ") "SXYZ" rfl (by decide),
   C5_secret_key_dispatch.2.1 sdkTest envNone rfl⟩

/-- C6: on a fully successful run the trace is exactly load–build–submit,
three times over, and the transaction submitted in each phase has as its
source account precisely the account returned by the load immediately
before it (`a1`, `a2`, `a3` — the accounts returned by network calls 0, 2
and 4): no account loaded for an earlier transaction is reused. -/
theorem C6_fresh_account_per_tx (fs : FS) (net : Net) (d : VeriLuxeDeployer)
    (a1 a2 a3 : Account) (r1 r2 r3 : TxResponse) (wh : List Nat)
    (hf : fs.path_exists default_wasm_path = true)
    (hl0 : net.load_account 0 d.admin_keypair.public_key = Except.ok a1)
    (hs1 : ∀ tx, net.submit_transaction 1 tx = Except.ok r1)
    (hr1 : r1.successful = true)
    (hl2 : net.load_account 2 d.admin_keypair.public_key = Except.ok a2)
    (hhex : bytes_fromhex r1.hash = Except.ok wh)
    (hs3 : ∀ tx, net.submit_transaction 3 tx = Except.ok r2)
    (hr2 : r2.successful = true)
    (hl4 : net.load_account 4 d.admin_keypair.public_key = Except.ok a3)
    (hs5 : ∀ tx, net.submit_transaction 5 tx = Except.ok r3)
    (hr3 : r3.successful = true) :
    (d.deploy_contract fs net).2.2 =
      [Ev.load d.admin_keypair.public_key,
       Ev.build (upload_tx_of fs d a1),
       Ev.submit ((upload_tx_of fs d a1).sign d.admin_keypair),
       Ev.load d.admin_keypair.public_key,
       Ev.build (create_tx_of d a2 wh),
       Ev.submit ((create_tx_of d a2 wh).sign d.admin_keypair),
       Ev.load d.admin_keypair.public_key,
       Ev.build (init_tx_of d a3 r2.contract_address),
       Ev.submit ((init_tx_of d a3 r2.contract_address).sign d.admin_keypair)]
  ∧ (upload_tx_of fs d a1).source_account = a1
  ∧ (create_tx_of d a2 wh).source_account = a2
  ∧ (init_tx_of d a3 r2.contract_address).source_account = a3 := by
  refine ⟨?_, rfl, rfl, rfl⟩
  simp [VeriLuxeDeployer.deploy_contract, load_wasm, VeriLuxeDeployer.init_contract,
        upload_tx_of, create_tx_of, init_tx_of,
        hf, hl0, hs1, hr1, hl2, hhex, hs3, hr2, hl4, hs5, hr3]

theorem C6_fresh_account_per_tx_witness :
    (dTest.deploy_contract fsYes netOk).2.2 =
      [Ev.load "GTEST",
       Ev.build (upload_tx_of fsYes dTest { account_id := "GTEST", sequence := 0 }),
       Ev.submit ((upload_tx_of fsYes dTest { account_id := "GTEST", sequence := 0 }).sign
         { public_key := "GTEST", secret := "STEST" }),
       Ev.load "GTEST",
       Ev.build (create_tx_of dTest { account_id := "GTEST", sequence := 2 } [222, 173, 190, 239]),
       Ev.submit ((create_tx_of dTest { account_id := "GTEST", sequence := 2 } [222, 173, 190, 239]).sign
         { public_key := "GTEST", secret := "STEST" }),
       Ev.load "GTEST",
       Ev.build (init_tx_of dTest { account_id := "GTEST", sequence := 4 } "CTEST"),
       Ev.submit ((init_tx_of dTest { account_id := "GTEST", sequence := 4 } "CTEST").sign
         { public_key := "GTEST", secret := "STEST" })]
  ∧ (upload_tx_of fsYes dTest { account_id := "GTEST", sequence := 0 }).source_account =
      { account_id := "GTEST", sequence := 0 }
  ∧ (create_tx_of dTest { account_id := "GTEST", sequence := 2 } [222, 173, 190, 239]).source_account =
      { account_id := "GTEST", sequence := 2 }
  ∧ (init_tx_of dTest { account_id := "GTEST", sequence := 4 } "CTEST").source_account =
      { account_id := "GTEST", sequence := 4 } :=
  C6_fresh_account_per_tx fsYes netOk dTest
    { account_id := "GTEST", sequence := 0 }
    { account_id := "GTEST", sequence := 2 }
    { account_id := "GTEST", sequence := 4 }
    respOk respOk respOk [222, 173, 190, 239]
    rfl rfl (fun _ => rfl) rfl rfl rfl (fun _ => rfl) rfl rfl (fun _ => rfl) rfl

/-- C7: on full success, `deploy_contract` of a deployer constructed with
network name `n` and resolved keypair `kp` returns exactly the record of
the upload response's hash, the creation response's contract address, the
administrator's public key and `n`. -/
theorem C7_success_result_fields (sdk : SDK) (env : Env) (n : String)
    (kp : Keypair) (fs : FS) (net : Net) (d : VeriLuxeDeployer)
    (a1 a2 a3 : Account) (r1 r2 r3 : TxResponse) (wh : List Nat)
    (hkp : setup_account sdk env = Except.ok kp)
    (hinit : VeriLuxeDeployer.init sdk env n = Except.ok d)
    (hf : fs.path_exists default_wasm_path = true)
    (hl0 : net.load_account 0 d.admin_keypair.public_key = Except.ok a1)
    (hs1 : ∀ tx, net.submit_transaction 1 tx = Except.ok r1)
    (hr1 : r1.successful = true)
    (hl2 : net.load_account 2 d.admin_keypair.public_key = Except.ok a2)
    (hhex : bytes_fromhex r1.hash = Except.ok wh)
    (hs3 : ∀ tx, net.submit_transaction 3 tx = Except.ok r2)
    (hr2 : r2.successful = true)
    (hl4 : net.load_account 4 d.admin_keypair.public_key = Except.ok a3)
    (hs5 : ∀ tx, net.submit_transaction 5 tx = Except.ok r3)
    (hr3 : r3.successful = true) :
    (d.deploy_contract fs net).1 =
      Except.ok { contract_hash := r1.hash, contract_address := r2.contract_address,
                  admin_public_key := kp.public_key, network := n } := by
  obtain ⟨c, hc, rfl⟩ : ∃ c, setup_network n = Except.ok c ∧
      d = { network := n, config := c, admin_keypair := kp } := by
    unfold VeriLuxeDeployer.init at hinit
    cases hsn : setup_network n with
    | error e => rw [hsn] at hinit; exact absurd hinit (by simp)
    | ok c =>
        rw [hsn, hkp] at hinit
        injection hinit with h
        exact ⟨c, rfl, h.symm⟩
  simp only [] at hl0 hl2 hl4
  simp [VeriLuxeDeployer.deploy_contract, load_wasm, VeriLuxeDeployer.init_contract,
        hf, hl0, hs1, hr1, hl2, hhex, hs3, hr2, hl4, hs5, hr3]

theorem C7_success_result_fields_witness :
    (dTest.deploy_contract fsYes netOk).1 =
      Except.ok { contract_hash := "deadbeef", contract_address := "CTEST",
                  admin_public_key := "GTEST", network := "testnet" } :=
  C7_success_result_fields sdkTest envNone "testnet"
    { public_key := "GTEST", secret := "STEST" } fsYes netOk dTest
    { account_id := "GTEST", sequence := 0 }
    { account_id := "GTEST", sequence := 2 }
    { account_id := "GTEST", sequence := 4 }
    respOk respOk respOk [222, 173, 190, 239]
    rfl rfl rfl rfl (fun _ => rfl) rfl rfl rfl (fun _ => rfl) rfl rfl (fun _ => rfl) rfl

/-- C8: `main` takes the network name from the first positional argument
(defaulting to `"testnet"`), but it can never exit with status 0: it calls
the `async` `deploy_contract` without `await`, so the coroutine body never
runs — no network call is made — and subscripting the coroutine raises
`TypeError`, which the handler converts to exit status 1.  In particular,
even on a world where every phase would succeed, `main` exits 1 having
made zero network calls. -/
theorem C8_main_never_exits_zero :
    main_network ["python-deploy.py"] = "testnet"
  ∧ main_network ["python-deploy.py", "futurenet"] = "futurenet"
  ∧ (∀ (sdk : SDK) (env : Env) (fs : FS) (net : Net) (argv : List String),
        (main sdk env fs net argv).1 = 1)
  ∧ main sdkTest envNone fsYes netOk ["python-deploy.py"] = (1, []) := by
  refine ⟨rfl, rfl, ?_, rfl⟩
  intro sdk env fs net argv
  unfold main
  cases VeriLuxeDeployer.init sdk env (main_network argv) <;> rfl

/-- C9: if `ADMIN_SECRET_KEY` is present but empty, `setup_account` treats
it as absent (Python truthiness) and falls back to the mnemonic-derived
keypair. -/
theorem C9_empty_secret_falls_back (sdk : SDK) (env : Env)
    (h : env "ADMIN_SECRET_KEY" = some "") :
    setup_account sdk env = Except.ok (sdk.from_mnemonic_phrase mnemonic) := by
  simp [setup_account, h]

theorem C9_empty_secret_falls_back_witness :
    setup_account sdkTest (envWith "") =
      Except.ok (sdkTest.from_mnemonic_phrase mnemonic) :=
  C9_empty_secret_falls_back sdkTest (envWith "") rfl

/-- C10: with a non-empty `ADMIN_SECRET_KEY` the deployer hands the value to
`Keypair.from_secret` (here its spec-modelled native-string parser); any
string not in the native encoding is rejected, and in particular the
64-character hexadecimal secret that `generate_keypair`'s printed guidance
(line 2 of its output names the hex encoding, line 6 tells the operator to
put it into `ADMIN_SECRET_KEY`) would supply makes account setup fail. -/
theorem C10_hex_secret_rejected :
    (∀ (p s : String) (raw : List Nat),
        (generate_keypair_lines p s raw).get? 2 =
          some ("Secret Key (Hex): " ++ bytes_hex raw))
  ∧ (∀ (env : Env) (s : String), env "ADMIN_SECRET_KEY" = some s → s ≠ "" →
        setup_account sdkModel env = from_secret_model s)
  ∧ (∀ s : String, isNativeSecret s = false →
        from_secret_model s = Except.error (PyErr.exception "Invalid Ed25519 Secret Seed"))
  ∧ (∀ (raw : List Nat) (env : Env), raw.length = 32 →
        env "ADMIN_SECRET_KEY" = some (bytes_hex raw) →
        setup_account sdkModel env =
          Except.error (PyErr.exception "Invalid Ed25519 Secret Seed")) := by
  have hrej : ∀ s : String, isNativeSecret s = false →
      from_secret_model s = Except.error (PyErr.exception "Invalid Ed25519 Secret Seed") := by
    intro s hs
    simp [from_secret_model, hs]
  refine ⟨fun _ _ _ => rfl, ?_, hrej, ?_⟩
  · intro env s h hs
    simp [setup_account, h, hs, sdkModel]
  · intro raw env hlen henv
    have hlen64 : (bytes_hex raw).length = 64 := by
      rw [bytes_hex_length, hlen]
    have hne : bytes_hex raw ≠ "" := by
      intro h0
      rw [h0] at hlen64
      exact absurd hlen64 (by decide)
    have hnat : isNativeSecret (bytes_hex raw) = false :=
      isNativeSecret_of_length_ne _ (by rw [hlen64]; decide)
    calc setup_account sdkModel env = from_secret_model (bytes_hex raw) := by
            simp [setup_account, henv, hne, sdkModel]
      _ = Except.error (PyErr.exception "Invalid Ed25519 Secret Seed") := hrej _ hnat

theorem C10_hex_secret_rejected_witness :
    setup_account sdkModel (envWith (bytes_hex (List.replicate 32 0))) =
      Except.error (PyErr.exception "Invalid Ed25519 Secret Seed") :=
  C10_hex_secret_rejected.2.2.2 (List.replicate 32 0)
    (envWith (bytes_hex (List.replicate 32 0))) (by decide) rfl

end VeriLuxe
